import Mathlib

/-!
Verification of the Excel report-assembly engine of `sf-reporting-excel-lambda`.

The definitions below are a shallow embedding of `src/excel-service.js`
(`ReportConfiguration`, `ColumnCalculator`, `ScvHeadersGenerator`,
`ExcelReportService.assignScvValues`, `populateFunnelAndNonPurchase`,
`shouldUseLargeDatasetMode`, `resetForRetry`, `generateReport`).

Modelling conventions:
* JavaScript numbers are embedded as `ℚ` (the report values are plain decimal
  arithmetic; no float rounding is relevant to the verified properties).
* Spreadsheet coordinates are `ℤ` (row, column), 1-based like excel4node.
* A field that JavaScript may hold as `null`/`undefined` or a non-numeric
  string is an `Option`: `Product.price : Option (Option ℚ)` — outer `none`
  is `null`/`undefined`, `some none` is a string `parseFloat` turns into
  `NaN`, `some (some q)` parses to the number `q`.
* Code that dereferences a possibly-absent value (`products[0].idProject`)
  returns `Option` — `none` models the thrown `TypeError`.
* Cell writes are recorded as an ordered list; the value a sheet finally
  holds at a coordinate is the last write to it (`cellAt`).
-/

namespace SfReport

/-- A product record as fetched from `{idProject}-products.json`. -/
structure Product where
  idProject : String
  idProduct : String
  description : String
  cells : String
  price : Option (Option ℚ)
  index_pd : String
deriving DecidableEq

/-- A sale event of a user session record. `quantity`, `sequence`,
`dwellTime` are `none` when the field is missing or `parseFloat` yields
`NaN` (the code then substitutes `0`, `0` and `-1` respectively). -/
structure SaleEvent where
  idProduct : String
  index : ℤ
  quantity : Option ℚ
  sequence : Option ℚ
  dwellTime : Option ℚ
deriving DecidableEq

/-- A click event; `index = -1` means "no target". `dwellTime = none`
models a missing/`NaN` dwell time (the code substitutes `-1`). -/
structure ClickEvent where
  idProduct : String
  index : ℤ
  time : ℚ
  count : ℚ
  dwellTime : Option ℚ
deriving DecidableEq

/-- A view event; `index = -1` means "no target". -/
structure ViewEvent where
  index : ℤ
  timer : ℚ
deriving DecidableEq

/-- A funnel event (niq projects only). -/
structure FunnelEvent where
  index : ℤ
  conversion : ℚ
deriving DecidableEq

/-- A non-purchase event (niq projects only). -/
structure NonPurchaseEvent where
  index : ℤ
deriving DecidableEq

/-- A user session record from `{idProject}-scv.json`. `funnels` and
`notPurchased` are optional fields (`none` = absent). -/
structure User where
  idSurvey : String
  idMaster : String
  idCell : String
  sales : List SaleEvent
  clicks : List ClickEvent
  views : List ViewEvent
  funnels : Option (List FunnelEvent)
  notPurchased : Option (List NonPurchaseEvent)
deriving DecidableEq

/-- The validated run parameters (`ReportConfiguration` in the source).
`hasPrices` holds the resolved pricing mode. -/
structure ReportConfiguration where
  idProject : String
  largeDataSet : Bool
  isAoi : Bool
  isFinal : Bool
  hasFindability : Bool
  largeDatasetThreshold : ℕ
  priceThreshold : ℚ
  hasPrices : Bool
deriving DecidableEq

/-- `ReportConfiguration.getPartner`: first 3 characters of the project id. -/
def ReportConfiguration.partner (config : ReportConfiguration) : String :=
  config.idProject.take 3

/-- `this.commonHeads` of the configuration: the 3 fixed identity columns. -/
def commonHeads : List String := ["Survey ID", "SF ID", "Cell ID"]

/-! ## Price auto-detection (`ReportConfiguration.detectHasPrices`) -/

/-- Classification of one product price, mirroring the loop body of
`detectHasPrices`: null/undefined and `NaN` prices count as invalid,
`0` counts as zero, `> 0` counts as valid (negative parses fall through
and are counted nowhere). -/
structure PriceCounts where
  valid : ℕ
  zero : ℕ
  invalid : ℕ
deriving DecidableEq

/-- The counting loop of `detectHasPrices`. -/
def classifyPrices (products : List Product) : PriceCounts :=
  products.foldl
    (fun acc product =>
      match product.price with
      | none => { acc with invalid := acc.invalid + 1 }
      | some none => { acc with invalid := acc.invalid + 1 }
      | some (some price) =>
        if price = 0 then { acc with zero := acc.zero + 1 }
        else if price > 0 then { acc with valid := acc.valid + 1 }
        else acc)
    ⟨0, 0, 0⟩

/-- Whether one product counts as having a valid price (parses to a number
strictly greater than 0). -/
def hasValidPrice (product : Product) : Bool :=
  match product.price with
  | some (some price) => decide (price > 0)
  | _ => false

/-- `ReportConfiguration.detectHasPrices`: empty (or missing) product list
gives `false`; otherwise pricing is included iff the share of products with
a valid price reaches the threshold (the comparison is `>=`). -/
def detectHasPrices (priceThreshold : ℚ) (products : List Product) : Bool :=
  if products.length = 0 then false
  else
    let counts := classifyPrices products
    decide ((counts.valid : ℚ) / (products.length : ℚ) ≥ priceThreshold)

/-! ## Column-Layout Calculator (`ColumnCalculator`) -/

/-- The column-layout descriptor returned by every section layout function:
`tc` = total columns, `fxc` = first indexed column, `bc` = base (summary)
column names, `icn` = per-product indexed column name templates. -/
structure Cols where
  tc : ℤ
  fxc : ℤ
  bc : List String
  icn : List String
deriving DecidableEq

/-- `ColumnCalculator.salesColumns`. The source dereferences
`products[0].idProject` before anything else, so the empty product list
throws (`none`). -/
def salesColumns (products : List Product) (numberCommonHeads : ℤ)
    (hasPrices : Bool) : Option Cols :=
  match products with
  | [] => none
  | firstProduct :: _ =>
    let partner := firstProduct.idProject.take 3
    let numberOfProducts : ℤ := (products.length : ℤ)
    let baseColumns : List String :=
      ["Total Items Purchased", "Total Basket Items"]
        ++ (if partner = "niq" then ["Avg Basket Price", "Avg Products Purchased"] else [])
        ++ (if hasPrices then ["Total Spend"] else [])
    let indexedColumnsNames : List String :=
      ["Purchased-Product Index:", "Quantity-Product Index:", "Sequence Index:",
        "Dwell Time Index:"]
        ++ (if hasPrices then ["Price-Product Index:"] else [])
    some
      { tc := numberCommonHeads + baseColumns.length
              + numberOfProducts * indexedColumnsNames.length
        fxc := numberCommonHeads + baseColumns.length + 1
        bc := baseColumns
        icn := indexedColumnsNames }

/-- `ColumnCalculator.clicksColumns`; also throws on the empty list. -/
def clicksColumns (products : List Product) (numberCommonHeads : ℤ) :
    Option Cols :=
  match products with
  | [] => none
  | firstProduct :: _ =>
    let partner := firstProduct.idProject.take 3
    let numberOfProducts : ℤ := (products.length : ℤ)
    let baseColumns : List String :=
      ["First Selection", "Time First Selection", "Total Products Selected"]
        ++ (if partner = "niq" then ["Avg Interactions Per Product"] else [])
    let indexedColumns : List String := ["Selected-Product Index:", "Dwell-Time Index:"]
    some
      { tc := numberCommonHeads + baseColumns.length
              + numberOfProducts * indexedColumns.length
        fxc := numberCommonHeads + baseColumns.length + 1
        bc := baseColumns
        icn := indexedColumns }

/-- `ColumnCalculator.viewsColumns` (takes only the product count). -/
def viewsColumns (numberOfProducts numberCommonHeads : ℤ) : Cols :=
  { tc := numberCommonHeads + numberOfProducts * 2
    fxc := numberCommonHeads + 1
    bc := []
    icn := ["Viewed-Product Index:", "Time-Viewed Index:"] }

/-- `ColumnCalculator.funnelColumns`. -/
def funnelColumns (numberOfProducts numberCommonHeads : ℤ) : Cols :=
  let baseColumns : List String := ["Total Conversion Rate"]
  let indexedColumns : List String := ["Conversion Funnel Index:"]
  { tc := numberCommonHeads + baseColumns.length
          + numberOfProducts * indexedColumns.length
    fxc := numberCommonHeads + baseColumns.length + 1
    bc := baseColumns
    icn := indexedColumns }

/-- `ColumnCalculator.nonPurchaseColumns`. -/
def nonPurchaseColumns (numberOfProducts numberCommonHeads : ℤ) : Cols :=
  let baseColumns : List String := ["Total Not Purchased"]
  let indexedColumns : List String := ["Product-Not-Purchased Index:", "Sequence Index:"]
  { tc := numberCommonHeads + baseColumns.length
          + numberOfProducts * indexedColumns.length
    fxc := numberCommonHeads + baseColumns.length + 1
    bc := baseColumns
    icn := indexedColumns }

/-- `ColumnCalculator.getColumnIndex`: the single offset formula used by
every header and value writer. -/
def getColumnIndex (currentProductIndex : ℤ) (columns : Cols)
    (nIndexColumn : ℤ) : ℤ :=
  currentProductIndex * (columns.icn.length : ℤ) + columns.fxc + nIndexColumn

/-- The property claimed of every section layout: the descriptor invariant,
the round-trip count, and bijectivity of the offset formula from
`{0..N-1} x {0..M-1}` onto `[fxc, tc]`. -/
def layoutBijective (numberOfProducts numberCommonHeads : ℤ) (c : Cols) : Prop :=
  c.tc = numberCommonHeads + (c.bc.length : ℤ)
           + numberOfProducts * (c.icn.length : ℤ) ∧
  c.tc - c.fxc + 1 = numberOfProducts * (c.icn.length : ℤ) ∧
  Set.BijOn (fun pk : ℤ × ℤ => getColumnIndex pk.1 c pk.2)
    (Set.Ico 0 numberOfProducts ×ˢ Set.Ico 0 (c.icn.length : ℤ))
    (Set.Icc c.fxc c.tc)

/-! ## Cell-write model

excel4node cell writes are recorded in program order; the value a sheet
finally holds at a coordinate is the last write to that coordinate.
Styling, column widths and filters carry no cell content and are not
modelled. -/

/-- The per-user section sheets touched by the header generator and the
per-user value assigners. -/
inductive SheetId where
  | sales
  | clicks
  | views
  | funnel
  | nonPurchase
deriving DecidableEq

/-- The content written into a cell: `.str` for `.string(...)`, `.num`
for `.number(...)`, `.formula` for `.formula(...)`. -/
inductive CellVal where
  | str (s : String)
  | num (q : ℚ)
  | formula (s : String)
deriving DecidableEq

/-- One recorded cell write. -/
structure Write where
  sheet : SheetId
  row : ℤ
  col : ℤ
  val : CellVal
deriving DecidableEq

/-- Whether a write targets the given coordinate. -/
def Write.hits (w : Write) (s : SheetId) (r c : ℤ) : Bool :=
  w.sheet = s ∧ w.row = r ∧ w.col = c

/-- The last write in `ws` to coordinate `(s, r, c)`, if any. -/
def lastWrite (ws : List Write) (s : SheetId) (r c : ℤ) : Option Write :=
  ws.reverse.find? (fun w => w.hits s r c)

/-- The value a sheet finally holds at a coordinate (`none` = blank). -/
def cellAt (ws : List Write) (s : SheetId) (r c : ℤ) : Option CellVal :=
  (lastWrite ws s r c).map Write.val

/-- Reading a cell with blanks interpreted as the number zero. -/
def readZero (ws : List Write) (s : SheetId) (r c : ℤ) : CellVal :=
  (cellAt ws s r c).getD (.num 0)

/-- The integers from `lo` to `hi` inclusive. -/
def intRange (lo hi : ℤ) : List ℤ :=
  (List.range (hi + 1 - lo).toNat).map fun (i : ℕ) => lo + (i : ℤ)

/-- The writes of `worksheet.cell(r1, c1, r2, c2).number(0)`: every cell of
the rectangle gets the number 0. -/
def rectZeroWrites (s : SheetId) (r1 r2 c1 c2 : ℤ) : List Write :=
  (intRange r1 r2).flatMap fun r =>
    (intRange c1 c2).map fun c =>
      { sheet := s, row := r, col := c, val := .num 0 }

/-- The three identity-column writes (`Survey ID`, `SF ID`, `Cell ID`)
a populator performs for one user row on one sheet. -/
def identityWrites (s : SheetId) (row : ℤ) (user : User) : List Write :=
  [ { sheet := s, row := row, col := 1, val := .str user.idSurvey },
    { sheet := s, row := row, col := 2, val := .str user.idMaster },
    { sheet := s, row := row, col := 3, val := .str user.idCell } ]

/-! ## Header Generator (`ScvHeadersGenerator.generate` and
`WorksheetStyler.assignIndexColumns`) -/

/-- `WorksheetStyler.assignIndexColumns`: the row-1 header writes for one
product block on one sheet (header text = template ++ 1-based index). -/
def assignIndexColumnsWrites (s : SheetId) (columns : Cols)
    (currentProductIndex : ℕ) : List Write :=
  columns.icn.enum.map fun t =>
    { sheet := s, row := 1
      col := getColumnIndex (currentProductIndex : ℤ) columns (t.1 : ℤ)
      val := .str (t.2 ++ toString (currentProductIndex + 1)) }

/-- The row-1 writes of the common identity headers on one sheet. -/
def commonHeadWrites (s : SheetId) : List Write :=
  commonHeads.enum.map fun t =>
    { sheet := s, row := 1, col := (t.1 : ℤ) + 1, val := .str t.2 }

/-- The row-1 writes of a section's base column names
(starting at column `commonHeads.length + 1`). -/
def baseHeadWrites (s : SheetId) (startColumn : ℤ) (names : List String) :
    List Write :=
  names.enum.map fun t =>
    { sheet := s, row := 1, col := startColumn + (t.1 : ℤ), val := .str t.2 }

/-- `ScvHeadersGenerator.generate`: header rows for Sales/Clicks/Views and —
unless `largeDataSet` — the zero pre-fill of each sheet's numeric region
(rows `2..numberOfUsers+1`, columns `fxc..tc`). Returns `none` when a
layout function throws (empty product list). -/
def scvGenerateWrites (config : ReportConfiguration) (products : List Product)
    (numberOfUsers : ℕ) : Option (List Write) := do
  let chl : ℤ := (commonHeads.length : ℤ)
  let commonW := commonHeadWrites .sales ++ commonHeadWrites .clicks
      ++ commonHeadWrites .views
  let sc ← salesColumns products chl config.hasPrices
  let salesBaseW := baseHeadWrites .sales (chl + 1) sc.bc
  let salesPrefillW :=
    if ¬config.largeDataSet then
      rectZeroWrites .sales 2 ((numberOfUsers : ℤ) + 1) sc.fxc sc.tc
    else []
  let cc ← clicksColumns products chl
  let clicksBaseW := baseHeadWrites .clicks (chl + 1) cc.bc
  let clicksPrefillW :=
    if ¬config.largeDataSet then
      rectZeroWrites .clicks 2 ((numberOfUsers : ℤ) + 1) cc.fxc cc.tc
    else []
  let vc := viewsColumns (products.length : ℤ) chl
  let viewsPrefillW :=
    if ¬config.largeDataSet then
      rectZeroWrites .views 2 ((numberOfUsers : ℤ) + 1) vc.fxc vc.tc
    else []
  let indexedW := (List.range products.length).flatMap fun i =>
    assignIndexColumnsWrites .sales sc i ++ assignIndexColumnsWrites .clicks cc i
      ++ assignIndexColumnsWrites .views vc i
  pure (commonW ++ salesBaseW ++ salesPrefillW ++ clicksBaseW ++ clicksPrefillW
    ++ viewsPrefillW ++ indexedW)

/-! ## Per-User Value Assigner (`ExcelReportService.assignScvValues`) -/

/-- Price resolution of a sale event: look the product up by id; the price
is the parsed product price when it parses to a number, else `0`
(`products.find(...)?.price || 0` followed by
`productPrice ? parseFloat(productPrice) : 0` and `parseFloat(...) || 0`). -/
def resolvePrice (products : List Product) (idProduct : String) : ℚ :=
  match products.find? (fun p => p.idProduct == idProduct) with
  | some product =>
    match product.price with
    | some (some q) => q
    | _ => 0
  | none => 0

/-- The writes of one sale event: purchased-flag, quantity, sequence,
dwell time (`-1` when missing/non-numeric) and — when pricing is
included — the resolved price, at the event's indexed columns. -/
def saleEventWrites (products : List Product) (hasPrices : Bool) (sc : Cols)
    (row : ℤ) (sale : SaleEvent) : List Write :=
  let column := getColumnIndex (sale.index - 1) sc 0
  [ { sheet := .sales, row := row, col := column, val := .num 1 },
    { sheet := .sales, row := row, col := column + 1, val := .num (sale.quantity.getD 0) },
    { sheet := .sales, row := row, col := column + 2, val := .num (sale.sequence.getD 0) },
    { sheet := .sales, row := row, col := column + 3, val := .num (sale.dwellTime.getD (-1)) } ]
  ++ (if hasPrices then
        [ { sheet := .sales, row := row, col := column + 4,
            val := .num (resolvePrice products sale.idProduct) } ]
      else [])

/-- The per-user sales accumulators: `sTotalItems`, `sTotalCartItems`,
`sTotalPurchase` (spend only accumulates when pricing is included). -/
structure SalesTotals where
  items : ℚ
  cartItems : ℕ
  purchase : ℚ
deriving DecidableEq

/-- The accumulation loop over a user's sale events. -/
def salesTotals (products : List Product) (hasPrices : Bool)
    (sales : List SaleEvent) : SalesTotals :=
  sales.foldl
    (fun acc sale =>
      { items := acc.items + sale.quantity.getD 0
        cartItems := acc.cartItems + 1
        purchase := acc.purchase
          + (if hasPrices then sale.quantity.getD 0 * resolvePrice products sale.idProduct
             else 0) })
    ⟨0, 0, 0⟩

/-- The per-user sales totals writes. For a `niq` partner with pricing the
average-basket-price and average-products-purchased cells are division
formulas over the same row (`H<row>/D<row>` and `D<row>/E<row>`), unless
either guard total is zero, in which case the literal number 0 is written. -/
def salesTotalsWrites (partner : String) (hasPrices : Bool) (row : ℤ)
    (t : SalesTotals) : List Write :=
  let nch : ℤ := (commonHeads.length : ℤ)
  [ { sheet := .sales, row := row, col := nch + 1, val := .num t.items },
    { sheet := .sales, row := row, col := nch + 2, val := .num (t.cartItems : ℚ) } ]
  ++ (if hasPrices then
        (if partner ≠ "niq" then
          [ { sheet := .sales, row := row, col := nch + 3, val := .num t.purchase } ]
        else
          [ { sheet := .sales, row := row, col := nch + 5, val := .num t.purchase } ]
          ++ (if t.cartItems > 0 ∧ t.purchase > 0 then
                [ { sheet := .sales, row := row, col := nch + 3,
                    val := .formula ("H" ++ toString row ++ "/D" ++ toString row) },
                  { sheet := .sales, row := row, col := nch + 4,
                    val := .formula ("D" ++ toString row ++ "/E" ++ toString row) } ]
              else
                [ { sheet := .sales, row := row, col := nch + 3, val := .num 0 },
                  { sheet := .sales, row := row, col := nch + 4, val := .num 0 } ]))
      else [])

/-- The writes of one click event (skipped when `index = -1`):
selected-flag and dwell time (`-1` when missing/non-numeric). -/
def clickEventWrites (cc : Cols) (row : ℤ) (click : ClickEvent) : List Write :=
  if click.index ≠ -1 then
    let column := getColumnIndex (click.index - 1) cc 0
    [ { sheet := .clicks, row := row, col := column, val := .num 1 },
      { sheet := .clicks, row := row, col := column + 1,
        val := .num (click.dwellTime.getD (-1)) } ]
  else []

/-- The per-user clicks totals writes: first selection (taken from the
first click event even when its index is `-1`), its time, the click-record
count, and for `niq` the average interactions per product (0 if no clicks). -/
def clicksTotalsWrites (partner : String) (row : ℤ)
    (clicks : List ClickEvent) : List Write :=
  let nch : ℤ := (commonHeads.length : ℤ)
  let firstClick : ℚ := match clicks with | [] => 0 | c :: _ => (c.index : ℚ)
  let timeFirstClick : ℚ := match clicks with | [] => 0 | c :: _ => c.time
  let totalCountClicks : ℚ := (clicks.map ClickEvent.count).sum
  [ { sheet := .clicks, row := row, col := nch + 1, val := .num firstClick },
    { sheet := .clicks, row := row, col := nch + 2, val := .num timeFirstClick },
    { sheet := .clicks, row := row, col := nch + 3, val := .num (clicks.length : ℚ) } ]
  ++ (if partner = "niq" then
        [ { sheet := .clicks, row := row, col := nch + 4,
            val := .num (if clicks.length > 0
                then totalCountClicks / (clicks.length : ℚ) else 0) } ]
      else [])

/-- The writes of one view event: viewed-flag and timer, written only when
`index != -1` and `timer > 0.4999`. -/
def viewEventWrites (vc : Cols) (row : ℤ) (view : ViewEvent) : List Write :=
  if view.index ≠ -1 then
    let column := getColumnIndex (view.index - 1) vc 0
    if view.timer > 4999 / 10000 then
      [ { sheet := .views, row := row, col := column, val := .num 1 },
        { sheet := .views, row := row, col := column + 1, val := .num view.timer } ]
    else []
  else []

/-- All writes `assignScvValues` performs for one user row. The sales pass
is skipped entirely in AOI mode. -/
def assignUserScvWrites (config : ReportConfiguration) (products : List Product)
    (sc cc vc : Cols) (row : ℤ) (user : User) : List Write :=
  identityWrites .sales row user ++ identityWrites .clicks row user
    ++ identityWrites .views row user
  ++ (if ¬config.isAoi then
        user.sales.flatMap (saleEventWrites products config.hasPrices sc row)
        ++ salesTotalsWrites config.partner config.hasPrices row
            (salesTotals products config.hasPrices user.sales)
      else [])
  ++ user.clicks.flatMap (clickEventWrites cc row)
  ++ clicksTotalsWrites config.partner row user.clicks
  ++ user.views.flatMap (viewEventWrites vc row)

/-- `ExcelReportService.assignScvValues`: one row per user (row = index+2).
The layout descriptors are recomputed inside the loop in the source; they
are loop-invariant, so they are bound once here — except that a loop that
never runs (no users) cannot throw, which the empty-user case preserves. -/
def assignScvValuesWrites (config : ReportConfiguration) (users : List User)
    (products : List Product) : Option (List Write) :=
  if users.isEmpty then some []
  else do
    let chl : ℤ := (commonHeads.length : ℤ)
    let sc ← salesColumns products chl config.hasPrices
    let cc ← clicksColumns products chl
    let vc := viewsColumns (products.length : ℤ) chl
    pure (users.enum.flatMap fun t =>
      assignUserScvWrites config products sc cc vc ((t.1 : ℤ) + 2) t.2)

/-! ## Funnel / non-purchase pass
(`ExcelReportService.populateFunnelAndNonPurchase`, per-user portion) -/

/-- Total conversion rate of a user: purchases with `conversion = 1` over
the number of funnel events; `0` when there are none (absent list = none). -/
def funnelConversionRate (funnels : Option (List FunnelEvent)) : ℚ :=
  let totalClicks := (funnels.getD []).length
  let totalPurchase := (funnels.getD []).countP (fun f => f.conversion == 1)
  if totalClicks > 0 then (totalPurchase : ℚ) / (totalClicks : ℚ) else 0

/-- The writes `populateFunnelAndNonPurchase` performs for one user row:
identity columns on both sheets, per-event conversion values and
not-purchased flags/sequences at indexed columns, the total conversion
rate and the total not-purchased count. Absent `funnels`/`notPurchased`
are guarded with null checks in the source and contribute nothing. -/
def funnelUserWrites (fc npc : Cols) (row : ℤ) (user : User) : List Write :=
  let nch : ℤ := (commonHeads.length : ℤ)
  identityWrites .funnel row user ++ identityWrites .nonPurchase row user
  ++ (user.funnels.getD []).flatMap (fun funnel =>
      if funnel.index ≠ -1 then
        [ { sheet := .funnel, row := row,
            col := getColumnIndex (funnel.index - 1) fc 0,
            val := .num funnel.conversion } ]
      else [])
  ++ [ { sheet := .funnel, row := row, col := nch + 1,
         val := .num (funnelConversionRate user.funnels) } ]
  ++ (user.notPurchased.getD []).enum.flatMap (fun t =>
      if t.2.index ≠ -1 then
        [ { sheet := .nonPurchase, row := row,
            col := getColumnIndex (t.2.index - 1) npc 0, val := .num 1 },
          { sheet := .nonPurchase, row := row,
            col := getColumnIndex (t.2.index - 1) npc 0 + 1,
            val := .num ((t.1 : ℚ) + 1) } ]
      else [])
  ++ [ { sheet := .nonPurchase, row := row, col := nch + 1,
         val := .num (((user.notPurchased.getD []).length : ℚ)) } ]

/-! ## Report Orchestrator (`generateReport` retry policy,
`shouldUseLargeDatasetMode`, `resetForRetry`) -/

/-- The orchestrator-visible mutable state: the dataset-size flag of the
configuration, and a generation counter for the worksheet manager and
populators (`new WorksheetManager(...)` bumps it; it witnesses whether the
sheets were rebuilt from scratch). -/
structure ServiceState where
  largeDataSet : Bool
  wmGeneration : ℕ
deriving DecidableEq

/-- `ExcelReportService.resetForRetry`: flips the configuration to
large-dataset mode and rebuilds the worksheet manager and populators. -/
def resetForRetry (s : ServiceState) : ServiceState :=
  { largeDataSet := true, wmGeneration := s.wmGeneration + 1 }

/-- `ExcelReportService.shouldUseLargeDatasetMode`: proactive check,
`users.length * products.length * 5 > largeDatasetThreshold`. -/
def shouldUseLargeDatasetMode (users : List User) (products : List Product)
    (largeDatasetThreshold : ℕ) : Bool :=
  let estimatedCells := users.length * products.length * 5
  decide (estimatedCells > largeDatasetThreshold)

/-- Whether `generateReport` performs the proactive switch: only when the
configuration is still in standard mode and the estimate tops the
threshold. -/
def proactiveSwitch (config : ReportConfiguration) (users : List User)
    (products : List Product) : Bool :=
  !config.largeDataSet
    && shouldUseLargeDatasetMode users products config.largeDatasetThreshold

/-- The retry loop of `ExcelReportService.generateReport`
(`maxRetries = 1`). `body` abstracts one pass through the `try` block
(fetch, generate, upload); it receives the current service state and
returns the state it leaves behind (a proactive `resetForRetry` inside the
attempt mutates it) together with success or a thrown error. On a first
failure while the configuration is still in standard mode, the loop sets
`config.largeDataSet = true` — touching nothing else — and re-runs the
body once; any second failure (or a first failure already in large mode)
propagates. The returned list is the state each attempt started from. -/
def generateReportRun {ε α : Type} (body : ServiceState → ServiceState × Except ε α)
    (s0 : ServiceState) : List ServiceState × ServiceState × Except ε α :=
  match body s0 with
  | (s1, Except.ok a) => ([s0], s1, Except.ok a)
  | (s1, Except.error e) =>
    if ¬s1.largeDataSet then
      let s2 : ServiceState := { s1 with largeDataSet := true }
      let second := body s2
      ([s0, s2], second.1, second.2)
    else ([s0], s1, Except.error e)

/-! ## Header/writer column agreement (for the partner-prefix claim) -/

/-- The sales-sheet base columns labelled by the header generator: the
column positions of `salesColumns(...).bc` (driven by
`products[0].idProject`). -/
def salesHeaderColumns (products : List Product) (hasPrices : Bool) :
    Option (List ℤ) :=
  (salesColumns products (commonHeads.length : ℤ) hasPrices).map fun sc =>
    (baseHeadWrites .sales ((commonHeads.length : ℤ) + 1) sc.bc).map Write.col

/-- The clicks-sheet base columns labelled by the header generator. -/
def clicksHeaderColumns (products : List Product) : Option (List ℤ) :=
  (clicksColumns products (commonHeads.length : ℤ)).map fun cc =>
    (baseHeadWrites .clicks ((commonHeads.length : ℤ) + 1) cc.bc).map Write.col

/-- The sales-sheet base columns the per-user value assigner writes into
(driven by `config.getPartner()`). -/
def salesWriterColumns (config : ReportConfiguration) (row : ℤ)
    (t : SalesTotals) : List ℤ :=
  (salesTotalsWrites config.partner config.hasPrices row t).map Write.col

/-- The clicks-sheet base columns the per-user value assigner writes into. -/
def clicksWriterColumns (config : ReportConfiguration) (row : ℤ)
    (clicks : List ClickEvent) : List ℤ :=
  (clicksTotalsWrites config.partner row clicks).map Write.col

/-- "The header layout and the value writer use the same column set": on
both the sales and the clicks sheet, the set of base columns the header
generator labels equals the set of base columns the value writer fills. -/
def headerWriterColumnsAgree (products : List Product)
    (config : ReportConfiguration) (row : ℤ) (t : SalesTotals)
    (clicks : List ClickEvent) : Prop :=
  (salesHeaderColumns products config.hasPrices).map (fun l => l.toFinset)
      = some ((salesWriterColumns config row t).toFinset)
    ∧ (clicksHeaderColumns products).map (fun l => l.toFinset)
      = some ((clicksWriterColumns config row clicks).toFinset)

/-- The spreadsheet name of column `c` for `1 <= c <= 26` (`4 ↦ "D"`,
`5 ↦ "E"`, `8 ↦ "H"`), used to read the hard-coded formula strings. -/
def colName (c : ℤ) : String :=
  String.mk [Char.ofNat (64 + c.toNat)]

/-- The `A1`-style reference of the cell at column `c`, row `r`. -/
def cellRef (c r : ℤ) : String :=
  colName c ++ toString r

/-- An attempt body that always throws — drives the reactive-retry path of
`generateReportRun`. -/
def alwaysFailBody : ServiceState → ServiceState × Except ℕ ℕ :=
  fun s => (s, Except.error 0)

/-! ### Sample inputs used by witness theorems -/

/-- A product of a non-niq project with a positive price. -/
def samplePriced : Product :=
  { idProject := "abc_x1", idProduct := "p1", description := "Product one"
    cells := "c1", price := some (some 10), index_pd := "1" }

/-- A product of the same project with a zero price. -/
def sampleZero : Product :=
  { idProject := "abc_x1", idProduct := "p2", description := "Product two"
    cells := "c2", price := some (some 0), index_pd := "2" }

/-- A product of a niq project with a positive price. -/
def niqProduct : Product :=
  { idProject := "niq_p1", idProduct := "p1", description := "Niq product"
    cells := "c1", price := some (some 10), index_pd := "1" }

/-- A sale of two units of `niqProduct`. -/
def niqSale : SaleEvent :=
  { idProduct := "p1", index := 1, quantity := some 2, sequence := some 1
    dwellTime := some 3 }

/-- A configuration for project `xyz_q1` (partner prefix `xyz`), pricing
included. -/
def sampleConfigXyz : ReportConfiguration :=
  { idProject := "xyz_q1", largeDataSet := false, isAoi := false
    isFinal := true, hasFindability := true, largeDatasetThreshold := 1000000
    priceThreshold := 1/2, hasPrices := true }

/-- A user session record with no events. -/
def sampleUser : User :=
  { idSurvey := "s1", idMaster := "m1", idCell := "c1", sales := []
    clicks := [], views := [], funnels := none, notPurchased := none }

/-- Everything the header generator and the per-user value assigner write,
in program order: headers (with the mode-dependent zero pre-fill) first,
then the per-user values. -/
def allScvWrites (config : ReportConfiguration) (products : List Product)
    (users : List User) : Option (List Write) := do
  let headerW ← scvGenerateWrites config products users.length
  let valueW ← assignScvValuesWrites config users products
  pure (headerW ++ valueW)

/-- The zero pre-fill region: rows `2..numberOfUsers+1`, columns
`fxc..tc` of the respective sheet. -/
def prefillRegion (sc cc vc : Cols) (numberOfUsers : ℕ) (s : SheetId)
    (r c : ℤ) : Prop :=
  2 ≤ r ∧ r ≤ (numberOfUsers : ℤ) + 1 ∧
  ((s = .sales ∧ sc.fxc ≤ c ∧ c ≤ sc.tc) ∨
   (s = .clicks ∧ cc.fxc ≤ c ∧ c ≤ cc.tc) ∨
   (s = .views ∧ vc.fxc ≤ c ∧ c ≤ vc.tc))

/-! ## Lemmas and claim theorems -/

lemma classifyPrices_step (acc : PriceCounts) (product : Product) :
    (match product.price with
      | none => { acc with invalid := acc.invalid + 1 }
      | some none => { acc with invalid := acc.invalid + 1 }
      | some (some price) =>
        if price = 0 then { acc with zero := acc.zero + 1 }
        else if price > 0 then { acc with valid := acc.valid + 1 }
        else acc : PriceCounts).valid
      = acc.valid + (if hasValidPrice product then 1 else 0) := by
  rcases product with ⟨_, _, _, _, price, _⟩
  rcases price with _ | priceVal
  · simp [hasValidPrice]
  · rcases priceVal with _ | q
    · simp [hasValidPrice]
    · by_cases h0 : q = 0
      · simp [hasValidPrice, h0]
      · by_cases hpos : q > 0
        · simp [hasValidPrice, h0, hpos]
        · simp [hasValidPrice, h0, hpos]

/-- The valid counter of the detection loop counts exactly the products
whose price parses to a number strictly greater than `0`. -/
lemma classifyPrices_valid (products : List Product) :
    (classifyPrices products).valid = products.countP hasValidPrice := by
  suffices h : ∀ acc : PriceCounts,
      (products.foldl
        (fun acc product =>
          match product.price with
          | none => { acc with invalid := acc.invalid + 1 }
          | some none => { acc with invalid := acc.invalid + 1 }
          | some (some price) =>
            if price = 0 then { acc with zero := acc.zero + 1 }
            else if price > 0 then { acc with valid := acc.valid + 1 }
            else acc)
        acc).valid = acc.valid + products.countP hasValidPrice by
    simpa [classifyPrices] using h ⟨0, 0, 0⟩
  induction products with
  | nil => intro acc; simp
  | cons p ps ih =>
    intro acc
    rw [List.foldl_cons, ih, List.countP_cons]
    rw [classifyPrices_step]
    by_cases h : hasValidPrice p
    · simp only [h, if_true]
      omega
    · simp only [h, if_false]
      omega

/-- Division-with-remainder uniqueness, phrased for the offset formula. -/
lemma offset_pair_inj (M : ℤ) (hM : 0 < M) (p₁ k₁ p₂ k₂ : ℤ)
    (hk₁0 : 0 ≤ k₁) (hk₁ : k₁ < M) (hk₂0 : 0 ≤ k₂) (hk₂ : k₂ < M)
    (heq : p₁ * M + k₁ = p₂ * M + k₂) : p₁ = p₂ ∧ k₁ = k₂ := by
  have hdiff : p₁ * M - p₂ * M = k₂ - k₁ := by omega
  have hlt : p₁ * M < p₂ * M + M := by omega
  have hgt : p₂ * M - M < p₁ * M := by omega
  have hub : p₁ < p₂ + 1 := by
    have h1 : p₁ * M < (p₂ + 1) * M := by rw [add_mul, one_mul]; omega
    exact lt_of_mul_lt_mul_right h1 (le_of_lt hM)
  have hlb : p₂ - 1 < p₁ := by
    have h1 : (p₂ - 1) * M < p₁ * M := by rw [sub_mul, one_mul]; omega
    exact lt_of_mul_lt_mul_right h1 (le_of_lt hM)
  have hp : p₁ = p₂ := by omega
  refine ⟨hp, ?_⟩
  rw [hp] at heq
  omega

/-- Any descriptor whose fields satisfy the construction pattern shared by
the five layout functions is bijective in the sense of `layoutBijective`. -/
lemma layoutBijective_of (numberOfProducts numberCommonHeads : ℤ) (c : Cols)
    (hM : 1 ≤ (c.icn.length : ℤ))
    (hfxc : c.fxc = numberCommonHeads + (c.bc.length : ℤ) + 1)
    (htc : c.tc = numberCommonHeads + (c.bc.length : ℤ)
            + numberOfProducts * (c.icn.length : ℤ)) :
    layoutBijective numberOfProducts numberCommonHeads c := by
  refine ⟨htc, by rw [htc, hfxc]; ring, ?_, ?_, ?_⟩
  · -- MapsTo
    rintro ⟨p, k⟩ ⟨⟨hp0, hpN⟩, hk0, hkM⟩
    simp only [Set.mem_Icc, getColumnIndex]
    have hpk : 0 ≤ p * (c.icn.length : ℤ) := by positivity
    have hpM : p * (c.icn.length : ℤ)
        ≤ (numberOfProducts - 1) * (c.icn.length : ℤ) :=
      mul_le_mul_of_nonneg_right (by omega) (by omega)
    rw [sub_mul, one_mul] at hpM
    constructor
    · omega
    · rw [htc, hfxc] at *
      omega
  · -- InjOn
    rintro ⟨p₁, k₁⟩ ⟨⟨hp₁0, hp₁N⟩, hk₁0, hk₁M⟩ ⟨p₂, k₂⟩ ⟨⟨hp₂0, hp₂N⟩, hk₂0, hk₂M⟩ heq
    simp only [getColumnIndex] at heq
    obtain ⟨hp, hk⟩ := offset_pair_inj (c.icn.length : ℤ) (by omega)
      p₁ k₁ p₂ k₂ hk₁0 hk₁M hk₂0 hk₂M (by omega)
    simp only [Prod.mk.injEq]
    exact ⟨hp, hk⟩
  · -- SurjOn
    intro x hx
    obtain ⟨hx1, hx2⟩ := hx
    have hMpos : 0 < (c.icn.length : ℤ) := by omega
    refine ⟨((x - c.fxc) / (c.icn.length : ℤ), (x - c.fxc) % (c.icn.length : ℤ)),
      ⟨⟨?_, ?_⟩, ?_, ?_⟩, ?_⟩
    · exact Int.ediv_nonneg (by omega) (by omega)
    · rw [Int.ediv_lt_iff_lt_mul hMpos]
      have : x - c.fxc < numberOfProducts * (c.icn.length : ℤ) := by
        rw [htc, hfxc] at *; omega
      linarith [this]
    · exact Int.emod_nonneg _ (by omega)
    · exact Int.emod_lt_of_pos _ hMpos
    · simp only [getColumnIndex]
      have hdm := Int.ediv_add_emod (x - c.fxc) (c.icn.length : ℤ)
      have hcomm : (x - c.fxc) / (c.icn.length : ℤ) * (c.icn.length : ℤ)
          = (c.icn.length : ℤ) * ((x - c.fxc) / (c.icn.length : ℤ)) := mul_comm _ _
      omega

/-- The sales accumulation loop, written as list sums. -/
lemma salesTotals_eq (products : List Product) (hasPrices : Bool)
    (sales : List SaleEvent) :
    salesTotals products hasPrices sales =
      { items := (sales.map fun s => s.quantity.getD 0).sum
        cartItems := sales.length
        purchase := (sales.map fun s =>
            if hasPrices then s.quantity.getD 0 * resolvePrice products s.idProduct
            else 0).sum } := by
  suffices h : ∀ acc : SalesTotals,
      sales.foldl
        (fun acc sale =>
          { items := acc.items + sale.quantity.getD 0
            cartItems := acc.cartItems + 1
            purchase := acc.purchase
              + (if hasPrices then
                  sale.quantity.getD 0 * resolvePrice products sale.idProduct
                 else 0) })
        acc
      = { items := acc.items + (sales.map fun s => s.quantity.getD 0).sum
          cartItems := acc.cartItems + sales.length
          purchase := acc.purchase + (sales.map fun s =>
              if hasPrices then s.quantity.getD 0 * resolvePrice products s.idProduct
              else 0).sum } by
    simpa [salesTotals] using h ⟨0, 0, 0⟩
  induction sales with
  | nil => intro acc; simp
  | cons s ss ih =>
    intro acc
    rw [List.foldl_cons, ih]
    simp only [List.map_cons, List.sum_cons, List.length_cons,
      SalesTotals.mk.injEq]
    refine ⟨by ring, by omega, by ring⟩

/-- With nonnegative quantities and resolved prices, a zero item total
forces a zero spend total. -/
lemma purchase_sum_zero_of_items_zero (products : List Product)
    (sales : List SaleEvent)
    (hq : ∀ s ∈ sales, 0 ≤ s.quantity.getD 0)
    (hpr : ∀ s ∈ sales, 0 ≤ resolvePrice products s.idProduct)
    (h0 : (sales.map fun s => s.quantity.getD 0).sum = 0) :
    (sales.map fun s => s.quantity.getD 0 * resolvePrice products s.idProduct).sum
      = 0 := by
  induction sales with
  | nil => simp
  | cons s ss ih =>
    simp only [List.map_cons, List.sum_cons] at h0 ⊢
    have hq0 : 0 ≤ s.quantity.getD 0 := hq s (List.mem_cons_self s ss)
    have hrest : 0 ≤ (ss.map fun x => x.quantity.getD 0).sum := by
      apply List.sum_nonneg
      intro a ha
      obtain ⟨x, hx, rfl⟩ := List.mem_map.mp ha
      exact hq x (List.mem_cons_of_mem s hx)
    have hqz : s.quantity.getD 0 = 0 := by linarith
    have hrz : (ss.map fun x => x.quantity.getD 0).sum = 0 := by linarith
    rw [hqz, zero_mul, zero_add]
    exact ih (fun x hx => hq x (List.mem_cons_of_mem s hx))
      (fun x hx => hpr x (List.mem_cons_of_mem s hx)) hrz

/-! ### C3 — price detection threshold -/

/-- C3: for a non-empty product list with `T` products of which `V` have a
price parsing to a number strictly greater than 0, `detectHasPrices` is
true iff `V/T >= priceThreshold` (so equality with the threshold yields
true); the empty list gives false. -/
theorem detectHasPrices_threshold_spec (priceThreshold : ℚ) :
    detectHasPrices priceThreshold [] = false ∧
    ∀ products : List Product, products ≠ [] →
      (detectHasPrices priceThreshold products = true
        ↔ (products.countP hasValidPrice : ℚ) / (products.length : ℚ)
            ≥ priceThreshold) := by
  constructor
  · simp [detectHasPrices]
  · intro products hne
    have hlen : products.length ≠ 0 := by simpa using hne
    simp [detectHasPrices, hlen, classifyPrices_valid]

/-- Witness for C3, the spec example: 2 products, one valid price out of
two, threshold 0.5 — `1/2 >= 0.5` so detection returns true. -/
theorem detectHasPrices_threshold_spec_witness :
    detectHasPrices (1/2) [samplePriced, sampleZero] = true :=
  ((detectHasPrices_threshold_spec (1/2)).2 [samplePriced, sampleZero]
      (by simp)).mpr (by norm_num [samplePriced, sampleZero, hasValidPrice,
        List.countP, List.countP.go])

/-! ### C2 — column-layout bijection for the five section layouts -/

/-- C2: for every descriptor built from `N >= 1` products, the offset map
`(productIndex, templateIndex) ↦ productIndex * M + fxc + templateIndex`
is a bijection from `{0..N-1} x {0..M-1}` onto `[fxc, tc]`, with
`tc = commonHeadCount + |bc| + N * M` and `tc - fxc + 1 = N * M`, for all
five section layouts. -/
theorem columnLayout_bijection (products : List Product)
    (numberCommonHeads : ℤ) (hasPrices : Bool) (hne : products ≠ []) :
    (∀ c, salesColumns products numberCommonHeads hasPrices = some c →
      layoutBijective (products.length : ℤ) numberCommonHeads c) ∧
    (∀ c, clicksColumns products numberCommonHeads = some c →
      layoutBijective (products.length : ℤ) numberCommonHeads c) ∧
    layoutBijective (products.length : ℤ) numberCommonHeads
      (viewsColumns (products.length : ℤ) numberCommonHeads) ∧
    layoutBijective (products.length : ℤ) numberCommonHeads
      (funnelColumns (products.length : ℤ) numberCommonHeads) ∧
    layoutBijective (products.length : ℤ) numberCommonHeads
      (nonPurchaseColumns (products.length : ℤ) numberCommonHeads) := by
  obtain ⟨firstProduct, rest, rfl⟩ := List.exists_cons_of_ne_nil hne
  have hN : (1 : ℤ) ≤ ((firstProduct :: rest).length : ℤ) := by
    simp only [List.length_cons]
    push_cast
    omega
  refine ⟨?_, ?_, ?_, ?_, ?_⟩
  · intro c hc
    simp only [salesColumns, Option.some.injEq] at hc
    subst hc
    apply layoutBijective_of
    · by_cases hp : hasPrices <;>
        by_cases hq : firstProduct.idProject.take 3 = "niq" <;>
        simp [hp, hq]
    · rfl
    · rfl
  · intro c hc
    simp only [clicksColumns, Option.some.injEq] at hc
    subst hc
    apply layoutBijective_of
    · simp
    · rfl
    · rfl
  · apply layoutBijective_of
    · simp [viewsColumns]
    · simp [viewsColumns]
    · simp [viewsColumns]
  · apply layoutBijective_of
    · simp [funnelColumns]
    · simp [funnelColumns]
    · simp [funnelColumns]
  · apply layoutBijective_of
    · simp [nonPurchaseColumns]
    · simp [nonPurchaseColumns]
    · simp [nonPurchaseColumns]

/-- Witness for C2 at a concrete descriptor: one product, 3 common heads,
pricing included. -/
theorem columnLayout_bijection_witness :
    (∀ c, salesColumns [samplePriced] 3 true = some c →
      layoutBijective ((List.length [samplePriced] : ℤ)) 3 c) ∧
    (∀ c, clicksColumns [samplePriced] 3 = some c →
      layoutBijective ((List.length [samplePriced] : ℤ)) 3 c) ∧
    layoutBijective ((List.length [samplePriced] : ℤ)) 3
      (viewsColumns ((List.length [samplePriced] : ℤ)) 3) ∧
    layoutBijective ((List.length [samplePriced] : ℤ)) 3
      (funnelColumns ((List.length [samplePriced] : ℤ)) 3) ∧
    layoutBijective ((List.length [samplePriced] : ℤ)) 3
      (nonPurchaseColumns ((List.length [samplePriced] : ℤ)) 3) :=
  columnLayout_bijection [samplePriced] 3 true (by simp)

/-! ### C4 — view write threshold -/

/-- C4: a view event produces the viewed-flag/timer writes iff
`index != -1` and `timer > 0.4999`; the boundary timers `0.4999` and `0.5`
produce different outcomes. -/
theorem viewEventWrites_threshold (vc : Cols) (row : ℤ) :
    (∀ view : ViewEvent,
      viewEventWrites vc row view
        = if view.index ≠ -1 ∧ view.timer > 4999 / 10000 then
            [ { sheet := .views, row := row,
                col := getColumnIndex (view.index - 1) vc 0, val := .num 1 },
              { sheet := .views, row := row,
                col := getColumnIndex (view.index - 1) vc 0 + 1,
                val := .num view.timer } ]
          else []) ∧
    viewEventWrites vc row { index := 1, timer := 4999 / 10000 } = [] ∧
    viewEventWrites vc row { index := 1, timer := 1 / 2 }
      = [ { sheet := .views, row := row, col := getColumnIndex 0 vc 0,
            val := .num 1 },
          { sheet := .views, row := row, col := getColumnIndex 0 vc 0 + 1,
            val := .num (1 / 2) } ] := by
  refine ⟨?_, ?_, ?_⟩
  · intro view
    by_cases h1 : view.index = -1
    · simp [viewEventWrites, h1]
    · by_cases h2 : view.timer > 4999 / 10000 <;>
        simp [viewEventWrites, h1, h2]
  · norm_num [viewEventWrites]
  · norm_num [viewEventWrites]

/-! ### C6 — proactive large-dataset threshold -/

/-- C6: the proactive switch to large-dataset mode happens iff
`users.length * products.length * 5` strictly exceeds the configured
threshold; at exact equality standard mode is kept. -/
theorem proactiveSwitch_threshold :
    (∀ (users : List User) (products : List Product) (threshold : ℕ),
      shouldUseLargeDatasetMode users products threshold = true
        ↔ users.length * products.length * 5 > threshold) ∧
    (∀ (users : List User) (products : List Product),
      shouldUseLargeDatasetMode users products
        (users.length * products.length * 5) = false) ∧
    (∀ (config : ReportConfiguration) (users : List User)
        (products : List Product),
      proactiveSwitch { config with largeDataSet := false } users products = true
        ↔ users.length * products.length * 5 > config.largeDatasetThreshold) := by
  refine ⟨?_, ?_, ?_⟩
  · intro users products threshold
    simp [shouldUseLargeDatasetMode]
  · intro users products
    simp [shouldUseLargeDatasetMode]
  · intro config users products
    simp [proactiveSwitch, shouldUseLargeDatasetMode]

/-! ### C5 — niq average formulas vs literal zeros -/

/-- C5: with partner code `niq` and pricing included, the avg-basket-price
(column F = commonHeads+3) and avg-products-purchased (column G) cells are
division formulas over cells of the same row — `H<row>/D<row>` and
`D<row>/E<row>`, where D holds the row's total items, E its total basket
items and H its total spend — whenever the row's totals are non-zero, and
the literal number 0 when either total (total items purchased or total
spend) is zero. Quantities and resolved prices are assumed nonnegative
(real event data). -/
theorem niqAverageFormulas (products : List Product) (sales : List SaleEvent)
    (row : ℤ)
    (hq : ∀ s ∈ sales, 0 ≤ s.quantity.getD 0)
    (hpr : ∀ s ∈ sales, 0 ≤ resolvePrice products s.idProduct) :
    ∀ t ws, t = salesTotals products true sales →
      ws = salesTotalsWrites "niq" true row t →
    cellAt ws .sales row 4 = some (.num t.items) ∧
    cellAt ws .sales row 5 = some (.num (t.cartItems : ℚ)) ∧
    cellAt ws .sales row 8 = some (.num t.purchase) ∧
    (t.items ≠ 0 ∧ t.purchase ≠ 0 →
      cellAt ws .sales row 6
          = some (.formula (cellRef 8 row ++ "/" ++ cellRef 4 row)) ∧
      cellAt ws .sales row 7
          = some (.formula (cellRef 4 row ++ "/" ++ cellRef 5 row))) ∧
    ((t.items = 0 ∨ t.purchase = 0) →
      cellAt ws .sales row 6 = some (.num 0) ∧
      cellAt ws .sales row 7 = some (.num 0)) := by
  intro t ws ht hws
  have hsum := salesTotals_eq products true sales
  rw [← ht] at hsum
  have hItems : t.items = (sales.map fun s => s.quantity.getD 0).sum := by
    rw [hsum]
  have hCart : t.cartItems = sales.length := by rw [hsum]
  have hPurch : t.purchase
      = (sales.map fun s =>
          s.quantity.getD 0 * resolvePrice products s.idProduct).sum := by
    rw [hsum]; simp
  have hitems_nonneg : 0 ≤ t.items := by
    rw [hItems]
    apply List.sum_nonneg
    intro a ha
    obtain ⟨x, hx, rfl⟩ := List.mem_map.mp ha
    exact hq x hx
  have hpurch_nonneg : 0 ≤ t.purchase := by
    rw [hPurch]
    apply List.sum_nonneg
    intro a ha
    obtain ⟨x, hx, rfl⟩ := List.mem_map.mp ha
    exact mul_nonneg (hq x hx) (hpr x hx)
  have hguard : (t.cartItems > 0 ∧ t.purchase > 0)
      ↔ (t.items ≠ 0 ∧ t.purchase ≠ 0) := by
    constructor
    · rintro ⟨_, hp⟩
      refine ⟨fun h0 => ?_, ne_of_gt hp⟩
      have hz := purchase_sum_zero_of_items_zero products sales hq hpr
        (by rw [← hItems]; exact h0)
      rw [← hPurch] at hz
      linarith
    · rintro ⟨hi, hp⟩
      have hipos : 0 < t.items := lt_of_le_of_ne hitems_nonneg (Ne.symm hi)
      refine ⟨?_, lt_of_le_of_ne hpurch_nonneg (Ne.symm hp)⟩
      rcases sales with _ | ⟨s, ss⟩
      · rw [hItems] at hipos; simp at hipos
      · rw [hCart]; simp
  have hH : cellRef 8 row = "H" ++ toString row := by
    have h : colName 8 = "H" := by decide
    simp [cellRef, h]
  have hD : cellRef 4 row = "D" ++ toString row := by
    have h : colName 4 = "D" := by decide
    simp [cellRef, h]
  have hE : cellRef 5 row = "E" ++ toString row := by
    have h : colName 5 = "E" := by decide
    simp [cellRef, h]
  by_cases hg : t.cartItems > 0 ∧ t.purchase > 0
  · have hcond := hguard.mp hg
    have h1 : ("/" : String) ++ "D" = "/D" := by decide
    have h2 : ("/" : String) ++ "E" = "/E" := by decide
    have hsd : ∀ s : String, ("/" : String) ++ ("D" ++ s) = "/D" ++ s := by
      intro s; rw [← String.append_assoc, h1]
    have hse : ∀ s : String, ("/" : String) ++ ("E" ++ s) = "/E" ++ s := by
      intro s; rw [← String.append_assoc, h2]
    subst hws
    refine ⟨?_, ?_, ?_, fun _ => ⟨?_, ?_⟩,
      fun hzero => absurd hzero (by push_neg; exact hcond)⟩ <;>
      simp [salesTotalsWrites, commonHeads, hg, cellAt, lastWrite,
        Write.hits, hH, hD, hE, hsd, hse, String.append_assoc]
  · have hcond : ¬(t.items ≠ 0 ∧ t.purchase ≠ 0) := fun h => hg (hguard.mpr h)
    subst hws
    refine ⟨?_, ?_, ?_, fun hnz => absurd hnz hcond, fun _ => ⟨?_, ?_⟩⟩ <;>
      simp [salesTotalsWrites, commonHeads, hg, cellAt, lastWrite, Write.hits]

/-- Witness for C5: a niq sale of 2 units at price 10 — non-zero totals,
so the avg-basket-price cell of row 2 holds the division formula `H2/D2`
over the row's total-spend and total-items cells. -/
theorem niqAverageFormulas_witness :
    cellAt (salesTotalsWrites "niq" true 2 (salesTotals [niqProduct] true [niqSale]))
        .sales 2 6
      = some (.formula (cellRef 8 2 ++ "/" ++ cellRef 4 2)) :=
  ((niqAverageFormulas [niqProduct] [niqSale] 2 (by decide) (by decide)
      (salesTotals [niqProduct] true [niqSale])
      (salesTotalsWrites "niq" true 2 (salesTotals [niqProduct] true [niqSale]))
      rfl rfl).2.2.2.1
      (by norm_num [salesTotals_eq, niqSale, niqProduct, resolvePrice])).1

/-! ### C8 — absent funnels/notPurchased contribute zero, no error -/

/-- C8: for a user whose `funnels` and `notPurchased` fields are absent,
the funnel/non-purchase pass performs only the identity writes plus a
literal 0 for the total conversion rate (funnel sheet, column 4) and a
literal 0 for the total-not-purchased count (non-purchase sheet, column
4); the null guards make the pass total, so no error is raised. -/
theorem funnelAbsentZeros (fc npc : Cols) (row : ℤ) (user : User) :
    funnelUserWrites fc npc row
        { user with funnels := none, notPurchased := none }
      = identityWrites .funnel row user ++ identityWrites .nonPurchase row user
        ++ [ { sheet := .funnel, row := row, col := 4, val := .num 0 },
             { sheet := .nonPurchase, row := row, col := 4, val := .num 0 } ] ∧
    cellAt (funnelUserWrites fc npc row
        { user with funnels := none, notPurchased := none }) .funnel row 4
      = some (.num 0) ∧
    cellAt (funnelUserWrites fc npc row
        { user with funnels := none, notPurchased := none }) .nonPurchase row 4
      = some (.num 0) := by
  refine ⟨?_, ?_, ?_⟩ <;>
    simp [funnelUserWrites, funnelConversionRate, commonHeads, identityWrites,
      cellAt, lastWrite, Write.hits]

/-! ### C9 — empty product list: layouts throw, detection tolerates -/

/-- C9: `salesColumns`/`clicksColumns` dereference `products[0].idProject`
first, so on the empty product list they throw (`none`) instead of
returning a descriptor; consequently header generation always needs at
least one product and value assignment needs one whenever any user row is
processed — while price detection returns `false` for the empty list. -/
theorem emptyProducts_precondition :
    (∀ (numberCommonHeads : ℤ) (hasPrices : Bool),
      salesColumns [] numberCommonHeads hasPrices = none) ∧
    (∀ numberCommonHeads : ℤ, clicksColumns [] numberCommonHeads = none) ∧
    (∀ (config : ReportConfiguration) (numberOfUsers : ℕ),
      scvGenerateWrites config [] numberOfUsers = none) ∧
    (∀ (config : ReportConfiguration) (user : User) (users : List User),
      assignScvValuesWrites config (user :: users) [] = none) ∧
    (∀ priceThreshold : ℚ, detectHasPrices priceThreshold [] = false) ∧
    (∀ (products : List Product) (numberCommonHeads : ℤ) (hasPrices : Bool),
      products ≠ [] →
      (salesColumns products numberCommonHeads hasPrices).isSome = true ∧
      (clicksColumns products numberCommonHeads).isSome = true) := by
  refine ⟨?_, ?_, ?_, ?_, ?_, ?_⟩
  · intro nch hp; rfl
  · intro nch; rfl
  · intro config numberOfUsers
    simp [scvGenerateWrites, salesColumns]
  · intro config user users
    simp [assignScvValuesWrites, salesColumns]
  · intro priceThreshold; rfl
  · intro products nch hp hne
    obtain ⟨firstProduct, rest, rfl⟩ := List.exists_cons_of_ne_nil hne
    exact ⟨by simp [salesColumns], by simp [clicksColumns]⟩

/-- Witness for C9 at a one-product list: both layouts deliver. -/
theorem emptyProducts_precondition_witness :
    (salesColumns [sampleZero] 3 true).isSome = true ∧
    (clicksColumns [sampleZero] 3).isSome = true :=
  emptyProducts_precondition.2.2.2.2.2 [sampleZero] 3 true (by simp)

/-! ### C1 — reactive retry: mode flip, single retry, no rebuild -/

/-- Counterexample to C1 as stated: a first-attempt failure in standard
mode leads to a second attempt whose starting state has the mode flipped
but the worksheet manager generation unchanged — it is not the rebuilt
state `resetForRetry` would produce, so the sheets and populators are not
rebuilt from scratch on the reactive path. -/
theorem generateReportRetry_counterexample :
    (generateReportRun alwaysFailBody
        { largeDataSet := false, wmGeneration := 1 }).1
      = [ { largeDataSet := false, wmGeneration := 1 },
          { largeDataSet := true, wmGeneration := 1 } ] ∧
    resetForRetry { largeDataSet := false, wmGeneration := 1 }
      = { largeDataSet := true, wmGeneration := 2 } ∧
    ({ largeDataSet := true, wmGeneration := 1 } : ServiceState)
      ≠ resetForRetry { largeDataSet := false, wmGeneration := 1 } := by
  refine ⟨by decide, by decide, by decide⟩

/-- C1 amended: a generation failure while the configuration is still in
standard mode flips `largeDataSet` to true — reusing the same worksheet
manager and populators (the state is not the `resetForRetry` rebuild) —
and retries exactly once; the second attempt's outcome, failure included,
is returned. A failure already in large-dataset mode propagates with no
retry. -/
theorem generateReportRetry_policy {ε α : Type}
    (body : ServiceState → ServiceState × Except ε α)
    (s0 s1 : ServiceState) (e : ε)
    (hfail : body s0 = (s1, Except.error e)) :
    (s1.largeDataSet = false →
      generateReportRun body s0
        = ([s0, { s1 with largeDataSet := true }],
            (body { s1 with largeDataSet := true }).1,
            (body { s1 with largeDataSet := true }).2) ∧
      ({ s1 with largeDataSet := true } : ServiceState).wmGeneration
        = s1.wmGeneration ∧
      ({ s1 with largeDataSet := true } : ServiceState) ≠ resetForRetry s1) ∧
    (s1.largeDataSet = true →
      generateReportRun body s0 = ([s0], s1, Except.error e)) := by
  constructor
  · intro hstd
    refine ⟨?_, rfl, ?_⟩
    · simp [generateReportRun, hfail, hstd]
    · simp [resetForRetry, ServiceState.mk.injEq]
  · intro hlarge
    simp [generateReportRun, hfail, hlarge]

/-- Witness for C1 (amended) at the always-failing body: both attempts
fail, the second starts from the flipped — not rebuilt — state, and the
second error is returned. -/
theorem generateReportRetry_policy_witness :
    generateReportRun alwaysFailBody { largeDataSet := false, wmGeneration := 1 }
      = ([ { largeDataSet := false, wmGeneration := 1 },
           { largeDataSet := true, wmGeneration := 1 } ],
          { largeDataSet := true, wmGeneration := 1 },
          (Except.error 0 : Except ℕ ℕ)) ∧
    ({ largeDataSet := true, wmGeneration := 1 } : ServiceState).wmGeneration = 1 ∧
    ({ largeDataSet := true, wmGeneration := 1 } : ServiceState)
      ≠ resetForRetry { largeDataSet := false, wmGeneration := 1 } :=
  (generateReportRetry_policy alwaysFailBody
    { largeDataSet := false, wmGeneration := 1 }
    { largeDataSet := false, wmGeneration := 1 } 0 rfl).1 rfl

/-! ### C10 — partner prefix of the layouts vs the value writer -/

/-- Counterexample to C10 as stated: project prefixes `abc` (products) and
`xyz` (configuration) differ, yet — both being non-niq with pricing
included — the header generator and the value writer use the same column
sets on both the sales and the clicks sheet, so "same column set iff the
prefixes agree" is false. -/
theorem headerWriterAgree_counterexample :
    headerWriterColumnsAgree [samplePriced] sampleConfigXyz 2
        { items := 2, cartItems := 1, purchase := 20 } [] ∧
    samplePriced.idProject.take 3 ≠ sampleConfigXyz.idProject.take 3 := by
  constructor
  · constructor <;> decide
  · decide

/-- C10 amended: the header layout (driven by `products[0].idProject`) and
the value writer (driven by the configuration's project id) use the same
column set iff the two 3-character prefixes agree on whether they equal
`niq` — and, when pricing is excluded, neither is `niq` (without pricing
the writer never fills the niq average columns the header still labels). -/
theorem headerWriterAgree_iff_niq (firstProduct : Product)
    (rest : List Product) (config : ReportConfiguration) (row : ℤ)
    (t : SalesTotals) (clicks : List ClickEvent) :
    headerWriterColumnsAgree (firstProduct :: rest) config row t clicks
      ↔ ((firstProduct.idProject.take 3 = "niq" ↔ config.partner = "niq")
          ∧ (config.hasPrices = true ∨ firstProduct.idProject.take 3 ≠ "niq")) := by
  by_cases hpp : firstProduct.idProject.take 3 = "niq" <;>
  by_cases hcp : config.partner = "niq" <;>
  by_cases hhp : config.hasPrices <;>
  by_cases hg : t.cartItems > 0 ∧ t.purchase > 0 <;>
    simp [headerWriterColumnsAgree, salesHeaderColumns, clicksHeaderColumns,
      salesWriterColumns, clicksWriterColumns, salesColumns, clicksColumns,
      salesTotalsWrites, clicksTotalsWrites, baseHeadWrites, commonHeads,
      hpp, hcp, hhp, hg] <;>
    decide

/-! ### Write-list lemmas for the large-dataset equivalence -/

lemma lastWrite_append (l₁ l₂ : List Write) (s : SheetId) (r c : ℤ) :
    lastWrite (l₁ ++ l₂) s r c = (lastWrite l₂ s r c).or (lastWrite l₁ s r c) := by
  simp [lastWrite, List.find?_append]

lemma lastWrite_eq_none_of_row (l : List Write) (s : SheetId) (r c : ℤ)
    (h : ∀ w ∈ l, w.row ≠ r) : lastWrite l s r c = none := by
  rw [lastWrite, List.find?_eq_none]
  intro w hw
  have hrow := h w (List.mem_reverse.mp hw)
  simp [Write.hits]
  intro _ h2
  exact absurd h2 hrow

lemma lastWrite_eq_some_facts (l : List Write) (s : SheetId) (r c : ℤ)
    (w : Write) (h : lastWrite l s r c = some w) :
    w ∈ l ∧ w.sheet = s ∧ w.row = r ∧ w.col = c := by
  rw [lastWrite] at h
  have hm := List.mem_reverse.mp (List.mem_of_find?_eq_some h)
  have hp := List.find?_some h
  simp [Write.hits] at hp
  exact ⟨hm, hp.1, hp.2.1, hp.2.2⟩

lemma commonHeadWrites_row (s : SheetId) :
    ∀ w ∈ commonHeadWrites s, w.row = 1 := by
  intro w hw
  simp only [commonHeadWrites, List.mem_map] at hw
  obtain ⟨⟨i, name⟩, _, rfl⟩ := hw
  rfl

lemma baseHeadWrites_row (s : SheetId) (startColumn : ℤ) (names : List String) :
    ∀ w ∈ baseHeadWrites s startColumn names, w.row = 1 := by
  intro w hw
  simp only [baseHeadWrites, List.mem_map] at hw
  obtain ⟨⟨i, name⟩, _, rfl⟩ := hw
  rfl

lemma assignIndexColumnsWrites_row (s : SheetId) (columns : Cols) (i : ℕ) :
    ∀ w ∈ assignIndexColumnsWrites s columns i, w.row = 1 := by
  intro w hw
  simp only [assignIndexColumnsWrites, List.mem_map] at hw
  obtain ⟨⟨j, name⟩, _, rfl⟩ := hw
  rfl

lemma intRange_mem (lo hi x : ℤ) (h : x ∈ intRange lo hi) :
    lo ≤ x ∧ x ≤ hi := by
  rw [intRange] at h
  obtain ⟨i, hmem, rfl⟩ := List.mem_map.mp h
  have hlt := List.mem_range.mp hmem
  omega

lemma rectZeroWrites_facts (s' : SheetId) (r1 r2 c1 c2 : ℤ) (w : Write)
    (h : w ∈ rectZeroWrites s' r1 r2 c1 c2) :
    w.sheet = s' ∧ r1 ≤ w.row ∧ w.row ≤ r2 ∧ c1 ≤ w.col ∧ w.col ≤ c2
      ∧ w.val = .num 0 := by
  simp only [rectZeroWrites, List.mem_flatMap, List.mem_map] at h
  obtain ⟨r, hr, c, hc, rfl⟩ := h
  obtain ⟨hr1, hr2⟩ := intRange_mem _ _ _ hr
  obtain ⟨hc1, hc2⟩ := intRange_mem _ _ _ hc
  exact ⟨rfl, hr1, hr2, hc1, hc2, rfl⟩

/-- The header generator's writes, spelled out once the two fallible
layouts are known. -/
lemma scvGenerateWrites_eq (config : ReportConfiguration)
    (products : List Product) (n : ℕ) (sc cc : Cols)
    (hsc : salesColumns products ((commonHeads.length : ℤ)) config.hasPrices
      = some sc)
    (hcc : clicksColumns products ((commonHeads.length : ℤ)) = some cc) :
    scvGenerateWrites config products n = some (
      (commonHeadWrites .sales ++ commonHeadWrites .clicks
          ++ commonHeadWrites .views)
      ++ baseHeadWrites .sales ((commonHeads.length : ℤ) + 1) sc.bc
      ++ (if ¬config.largeDataSet then
            rectZeroWrites .sales 2 ((n : ℤ) + 1) sc.fxc sc.tc
          else [])
      ++ baseHeadWrites .clicks ((commonHeads.length : ℤ) + 1) cc.bc
      ++ (if ¬config.largeDataSet then
            rectZeroWrites .clicks 2 ((n : ℤ) + 1) cc.fxc cc.tc
          else [])
      ++ (if ¬config.largeDataSet then
            rectZeroWrites .views 2 ((n : ℤ) + 1)
              (viewsColumns (products.length : ℤ) ((commonHeads.length : ℤ))).fxc
              (viewsColumns (products.length : ℤ) ((commonHeads.length : ℤ))).tc
          else [])
      ++ (List.range products.length).flatMap (fun i =>
            assignIndexColumnsWrites .sales sc i
              ++ assignIndexColumnsWrites .clicks cc i
              ++ assignIndexColumnsWrites .views
                  (viewsColumns (products.length : ℤ) ((commonHeads.length : ℤ))) i)) := by
  simp [scvGenerateWrites, hsc, hcc]

/-- Successful runs of the header generator plus value assigner determine
the two layouts, the value-assigner writes, and the overall write list. -/
lemma allScvWrites_some (config : ReportConfiguration)
    (products : List Product) (users : List User) (w : List Write)
    (h : allScvWrites config products users = some w) :
    ∃ sc cc valueW,
      salesColumns products ((commonHeads.length : ℤ)) config.hasPrices = some sc ∧
      clicksColumns products ((commonHeads.length : ℤ)) = some cc ∧
      assignScvValuesWrites config users products = some valueW ∧
      w = ((commonHeadWrites .sales ++ commonHeadWrites .clicks
            ++ commonHeadWrites .views)
        ++ baseHeadWrites .sales ((commonHeads.length : ℤ) + 1) sc.bc
        ++ (if ¬config.largeDataSet then
              rectZeroWrites .sales 2 ((users.length : ℤ) + 1) sc.fxc sc.tc
            else [])
        ++ baseHeadWrites .clicks ((commonHeads.length : ℤ) + 1) cc.bc
        ++ (if ¬config.largeDataSet then
              rectZeroWrites .clicks 2 ((users.length : ℤ) + 1) cc.fxc cc.tc
            else [])
        ++ (if ¬config.largeDataSet then
              rectZeroWrites .views 2 ((users.length : ℤ) + 1)
                (viewsColumns (products.length : ℤ) ((commonHeads.length : ℤ))).fxc
                (viewsColumns (products.length : ℤ) ((commonHeads.length : ℤ))).tc
            else [])
        ++ (List.range products.length).flatMap (fun i =>
              assignIndexColumnsWrites .sales sc i
                ++ assignIndexColumnsWrites .clicks cc i
                ++ assignIndexColumnsWrites .views
                    (viewsColumns (products.length : ℤ) ((commonHeads.length : ℤ))) i))
        ++ valueW := by
  cases hsc : salesColumns products ((commonHeads.length : ℤ)) config.hasPrices with
  | none =>
    exfalso
    simp [allScvWrites, scvGenerateWrites, hsc] at h
  | some sc =>
    cases hcc : clicksColumns products ((commonHeads.length : ℤ)) with
    | none =>
      exfalso
      simp [allScvWrites, scvGenerateWrites, hsc, hcc] at h
    | some cc =>
      have hg := scvGenerateWrites_eq config products users.length sc cc hsc hcc
      cases hA : assignScvValuesWrites config users products with
      | none =>
        exfalso
        simp [allScvWrites, hg, hA] at h
      | some valueW =>
        refine ⟨sc, cc, valueW, rfl, rfl, rfl, ?_⟩
        simp only [allScvWrites, hg, hA, Option.pure_def, Option.bind_eq_bind,
          Option.some_bind, Option.some.injEq] at h
        exact h.symm

/-- C7: on identical inputs, standard mode and large-dataset mode produce
the same final cell values except that the cells of the zero pre-fill
region not overwritten by a later write are explicitly 0 in standard mode
and blank in large mode; reading blanks as zero, the two sheets agree at
every coordinate. -/
theorem largeDatasetMode_equivalence (config : ReportConfiguration)
    (products : List Product) (users : List User) (wStd wLarge : List Write)
    (hStd : allScvWrites { config with largeDataSet := false } products users
      = some wStd)
    (hLarge : allScvWrites { config with largeDataSet := true } products users
      = some wLarge) :
    ∀ (s : SheetId) (r c : ℤ),
      (cellAt wStd s r c = cellAt wLarge s r c ∨
        (cellAt wStd s r c = some (.num 0) ∧ cellAt wLarge s r c = none)) ∧
      readZero wStd s r c = readZero wLarge s r c ∧
      (cellAt wStd s r c ≠ cellAt wLarge s r c →
        ∃ sc cc,
          salesColumns products ((commonHeads.length : ℤ)) config.hasPrices
            = some sc ∧
          clicksColumns products ((commonHeads.length : ℤ)) = some cc ∧
          prefillRegion sc cc
            (viewsColumns (products.length : ℤ) ((commonHeads.length : ℤ)))
            users.length s r c) := by
  obtain ⟨sc, cc, valueW, hsc, hcc, hA, hw⟩ :=
    allScvWrites_some _ products users wStd hStd
  obtain ⟨sc', cc', valueW', hsc', hcc', hA', hw'⟩ :=
    allScvWrites_some _ products users wLarge hLarge
  have hsceq : sc' = sc := by
    have h := hsc.symm.trans hsc'
    exact (Option.some.inj h).symm
  have hcceq : cc' = cc := by
    have h := hcc.symm.trans hcc'
    exact (Option.some.inj h).symm
  have hAeq : valueW' = valueW := by
    have h := hA.symm.trans hA'
    exact (Option.some.inj h).symm
  rw [hsceq, hcceq, hAeq] at hw'
  simp at hw hw'
  subst hw hw'
  intro s r c
  have hIrow : ∀ w ∈ (List.range products.length).flatMap (fun i =>
      assignIndexColumnsWrites .sales sc i
        ++ (assignIndexColumnsWrites .clicks cc i
          ++ assignIndexColumnsWrites .views
              (viewsColumns (products.length : ℤ) ((commonHeads.length : ℤ))) i)),
      w.row = 1 := by
    intro w hwmem
    obtain ⟨i, _, hw2⟩ := List.mem_flatMap.mp hwmem
    rcases List.mem_append.mp hw2 with h2 | h2
    · exact assignIndexColumnsWrites_row _ _ _ w h2
    · rcases List.mem_append.mp h2 with h3 | h3
      · exact assignIndexColumnsWrites_row _ _ _ w h3
      · exact assignIndexColumnsWrites_row _ _ _ w h3
  have hrow1none : ∀ (l : List Write), (∀ w ∈ l, w.row = 1) → r ≠ 1 →
      lastWrite l s r c = none := by
    intro l hl hr
    apply lastWrite_eq_none_of_row
    intro w hwmem
    rw [hl w hwmem]
    exact fun hcontra => hr hcontra.symm
  have hrect1 : ∀ (sh : SheetId) (c1 c2 : ℤ), r = 1 →
      lastWrite (rectZeroWrites sh 2 ((users.length : ℤ) + 1) c1 c2) s r c
        = none := by
    intro sh c1 c2 hr
    apply lastWrite_eq_none_of_row
    intro w hwmem
    have hfacts := rectZeroWrites_facts _ _ _ _ _ w hwmem
    omega
  by_cases hr : r = 1
  · -- row 1: the pre-fill blocks never hit, the chains coincide
    simp [cellAt, readZero, lastWrite_append, hrect1 _ _ _ hr]
  · -- rows >= 2: the header rows never hit
    simp only [cellAt, readZero, lastWrite_append,
      hrow1none _ (commonHeadWrites_row SheetId.sales) hr,
      hrow1none _ (commonHeadWrites_row SheetId.clicks) hr,
      hrow1none _ (commonHeadWrites_row SheetId.views) hr,
      hrow1none _ (baseHeadWrites_row SheetId.sales _ _) hr,
      hrow1none _ (baseHeadWrites_row SheetId.clicks _ _) hr,
      hrow1none _ hIrow hr, Option.none_or, Option.or_none]
    cases hLA : lastWrite valueW s r c with
    | some wA => simp [hLA]
    | none =>
      simp only [hLA, Option.none_or, Option.or_none]
      cases hP3 : lastWrite
          (rectZeroWrites .views 2 ((users.length : ℤ) + 1)
            (viewsColumns (products.length : ℤ) ((commonHeads.length : ℤ))).fxc
            (viewsColumns (products.length : ℤ) ((commonHeads.length : ℤ))).tc)
          s r c with
      | some w3 =>
        obtain ⟨hmem3, hsheet3, hrow3, hcol3⟩ :=
          lastWrite_eq_some_facts _ _ _ _ _ hP3
        obtain ⟨hs3, hr3a, hr3b, hc3a, hc3b, hv3⟩ :=
          rectZeroWrites_facts _ _ _ _ _ _ hmem3
        have hsv : s = SheetId.views := by rw [← hsheet3, hs3]
        refine ⟨Or.inr ⟨?_, ?_⟩, ?_, fun _ => ⟨sc, cc, hsc, hcc, ?_⟩⟩
        · simp [hP3, hv3]
        · simp
        · simp [readZero, hP3, hv3]
        · simp only [prefillRegion]
          exact ⟨by omega, by omega, Or.inr (Or.inr ⟨hsv, by omega, by omega⟩)⟩
      | none =>
        simp only [hP3, Option.none_or, Option.or_none]
        cases hP2 : lastWrite
            (rectZeroWrites .clicks 2 ((users.length : ℤ) + 1) cc.fxc cc.tc)
            s r c with
        | some w2 =>
          obtain ⟨hmem2, hsheet2, hrow2, hcol2⟩ :=
            lastWrite_eq_some_facts _ _ _ _ _ hP2
          obtain ⟨hs2, hr2a, hr2b, hc2a, hc2b, hv2⟩ :=
            rectZeroWrites_facts _ _ _ _ _ _ hmem2
          have hsv : s = SheetId.clicks := by rw [← hsheet2, hs2]
          refine ⟨Or.inr ⟨?_, ?_⟩, ?_, fun _ => ⟨sc, cc, hsc, hcc, ?_⟩⟩
          · simp [hP2, hv2]
          · simp
          · simp [readZero, hP2, hv2]
          · simp only [prefillRegion]
            exact ⟨by omega, by omega, Or.inr (Or.inl ⟨hsv, by omega, by omega⟩)⟩
        | none =>
          simp only [hP2, Option.none_or, Option.or_none]
          cases hP1 : lastWrite
              (rectZeroWrites .sales 2 ((users.length : ℤ) + 1) sc.fxc sc.tc)
              s r c with
          | some w1 =>
            obtain ⟨hmem1, hsheet1, hrow1, hcol1⟩ :=
              lastWrite_eq_some_facts _ _ _ _ _ hP1
            obtain ⟨hs1, hr1a, hr1b, hc1a, hc1b, hv1⟩ :=
              rectZeroWrites_facts _ _ _ _ _ _ hmem1
            have hsv : s = SheetId.sales := by rw [← hsheet1, hs1]
            refine ⟨Or.inr ⟨?_, ?_⟩, ?_, fun _ => ⟨sc, cc, hsc, hcc, ?_⟩⟩
            · simp [hP1, hv1]
            · simp
            · simp [readZero, hP1, hv1]
            · simp only [prefillRegion]
              exact ⟨by omega, by omega, Or.inl ⟨hsv, by omega, by omega⟩⟩
          | none =>
            simp [hP1]

/-- Witness for C7: one product, one (eventless) user, coordinate
`(sales, 2, 7)` — a pre-fill cell: explicitly 0 in standard mode, blank in
large mode, equal when blanks read as zero. -/
theorem largeDatasetMode_equivalence_witness :
    (cellAt ((allScvWrites { sampleConfigXyz with largeDataSet := false }
          [samplePriced] [sampleUser]).getD []) SheetId.sales 2 7
        = cellAt ((allScvWrites { sampleConfigXyz with largeDataSet := true }
          [samplePriced] [sampleUser]).getD []) SheetId.sales 2 7 ∨
      (cellAt ((allScvWrites { sampleConfigXyz with largeDataSet := false }
          [samplePriced] [sampleUser]).getD []) SheetId.sales 2 7
          = some (.num 0) ∧
        cellAt ((allScvWrites { sampleConfigXyz with largeDataSet := true }
          [samplePriced] [sampleUser]).getD []) SheetId.sales 2 7 = none)) ∧
    readZero ((allScvWrites { sampleConfigXyz with largeDataSet := false }
        [samplePriced] [sampleUser]).getD []) SheetId.sales 2 7
      = readZero ((allScvWrites { sampleConfigXyz with largeDataSet := true }
        [samplePriced] [sampleUser]).getD []) SheetId.sales 2 7 ∧
    (cellAt ((allScvWrites { sampleConfigXyz with largeDataSet := false }
        [samplePriced] [sampleUser]).getD []) SheetId.sales 2 7
      ≠ cellAt ((allScvWrites { sampleConfigXyz with largeDataSet := true }
        [samplePriced] [sampleUser]).getD []) SheetId.sales 2 7 →
      ∃ sc cc,
        salesColumns [samplePriced] ((commonHeads.length : ℤ))
          sampleConfigXyz.hasPrices = some sc ∧
        clicksColumns [samplePriced] ((commonHeads.length : ℤ)) = some cc ∧
        prefillRegion sc cc
          (viewsColumns ((List.length [samplePriced] : ℤ)) ((commonHeads.length : ℤ)))
          (List.length [sampleUser]) SheetId.sales 2 7) :=
  largeDatasetMode_equivalence sampleConfigXyz [samplePriced] [sampleUser]
    ((allScvWrites { sampleConfigXyz with largeDataSet := false }
      [samplePriced] [sampleUser]).getD [])
    ((allScvWrites { sampleConfigXyz with largeDataSet := true }
      [samplePriced] [sampleUser]).getD [])
    (by rfl) (by rfl) SheetId.sales 2 7

end SfReport
